import Mathlib

/-
Verification of the report-generation component of the Web Application
Security Scanner (report_generator.py). The scan store, the scan-data
reader, the six format renderers and the multi-format orchestrator are
embedded as executable Lean definitions; the theorems below settle the
specified properties against this embedding. File writes and the byte
encoders of the external document libraries (reportlab, python-docx,
openpyxl, the json and csv modules) are modelled at the boundary the
source code hands its data to: the HTML renderer down to the exact
template text, the CSV renderer at the level of the rows passed to
csv.writer, the JSON renderer at the level of the dictionary passed to
json.dump, and the PDF/DOCX/Excel renderers at the level of the element
sequences handed to the respective library.
-/

set_option maxRecDepth 4096

/-- Row of the scans table, in the column order used by
VIPReportGenerator.get_scan_data (scan[0] .. scan[9]). -/
structure ScanRow where
  id : Int
  target_url : String
  scan_type : String
  start_time : String
  end_time : String
  total_alerts : Int
  high_risk : Int
  medium_risk : Int
  low_risk : Int
  status : String
deriving Repr, DecidableEq

/-- Row of the vulnerabilities table, in the column order used by
get_scan_data (v[0] .. v[8]). The solution and reference columns are
nullable; the renderers test them for Python truthiness. -/
structure VulnRow where
  id : Int
  scan_id : Int
  name : String
  severity : String
  confidence : String
  url : String
  description : String
  solution : Option String
  reference : Option String
deriving Repr, DecidableEq

/-- The scan store: the two tables of the sqlite database, rows in
stored order. -/
structure Store where
  scans : List ScanRow
  vulns : List VulnRow
deriving Repr, DecidableEq

/-- One entry of the vulnerabilities list built by get_scan_data
(the dictionary with keys id, name, severity, confidence, url,
description, solution, reference). -/
structure Finding where
  id : Int
  name : String
  severity : String
  confidence : String
  url : String
  description : String
  solution : Option String
  reference : Option String
deriving Repr, DecidableEq

/-- The aggregate dictionary returned by get_scan_data: the full scan
record merged with the list of findings of that scan. -/
structure ScanData where
  scan_id : Int
  target_url : String
  scan_type : String
  start_time : String
  end_time : String
  total_alerts : Int
  high_risk : Int
  medium_risk : Int
  low_risk : Int
  status : String
  vulnerabilities : List Finding
deriving Repr, DecidableEq

/-- Events on the sqlite connection inside get_scan_data. -/
inductive ConnEvent where
  | openConn
  | queryScans
  | queryVulns
  | closeConn
deriving Repr, DecidableEq

/-- The fetchone of SELECT * FROM scans WHERE id = ?: the first stored
row whose id matches. -/
def findScan (store : Store) (scan_id : Int) : Option ScanRow :=
  store.scans.find? (fun s => s.id == scan_id)

/-- The fetchall of SELECT * FROM vulnerabilities WHERE scan_id = ?:
all stored rows of that scan, in stored order. -/
def scanVulns (store : Store) (scan_id : Int) : List VulnRow :=
  store.vulns.filter (fun v => v.scan_id == scan_id)

/-- The dictionary get_scan_data builds from one vulnerabilities row. -/
def rowToFinding (v : VulnRow) : Finding :=
  { id := v.id, name := v.name, severity := v.severity,
    confidence := v.confidence, url := v.url, description := v.description,
    solution := v.solution, reference := v.reference }

/-- The fully populated aggregate for a scan row and its vulnerability
rows: every scan field copied verbatim, every finding mapped through
rowToFinding. Used by the theorems to state full population. -/
def mkScanData (scan : ScanRow) (vulns : List VulnRow) : ScanData :=
  { scan_id := scan.id, target_url := scan.target_url,
    scan_type := scan.scan_type, start_time := scan.start_time,
    end_time := scan.end_time, total_alerts := scan.total_alerts,
    high_risk := scan.high_risk, medium_risk := scan.medium_risk,
    low_risk := scan.low_risk, status := scan.status,
    vulnerabilities := vulns.map rowToFinding }

/-- Embeds VIPReportGenerator.get_scan_data: open a connection, query
the scan row; when absent, close and return None; otherwise query the
vulnerability rows, build the aggregate dictionary, close and return
it. The second component is the trace of connection events. -/
def get_scan_data (store : Store) (scan_id : Int) :
    Option ScanData × List ConnEvent :=
  match findScan store scan_id with
  | none =>
      (none, [ConnEvent.openConn, ConnEvent.queryScans, ConnEvent.closeConn])
  | some scan =>
      let vulns := scanVulns store scan_id
      (some { scan_id := scan.id, target_url := scan.target_url,
              scan_type := scan.scan_type, start_time := scan.start_time,
              end_time := scan.end_time, total_alerts := scan.total_alerts,
              high_risk := scan.high_risk, medium_risk := scan.medium_risk,
              low_risk := scan.low_risk, status := scan.status,
              vulnerabilities := vulns.map rowToFinding },
       [ConnEvent.openConn, ConnEvent.queryScans, ConnEvent.queryVulns,
        ConnEvent.closeConn])

/-- The value get_scan_data returns to its caller. -/
def getScanData (store : Store) (scan_id : Int) : Option ScanData :=
  (get_scan_data store scan_id).1

/-- The connection-event trace of one get_scan_data call. -/
def scanDataTrace (store : Store) (scan_id : Int) : List ConnEvent :=
  (get_scan_data store scan_id).2

/-- Python truthiness of a nullable string column: None and the empty
string are falsy, every other string is truthy. -/
def pytruthy : Option String → Bool
  | none => false
  | some s => !(s == "")

/-- Python str() of a nullable string, as interpolated into a template
slot (only reached on truthy values in the renderers). -/
def pystrOpt : Option String → String
  | none => "None"
  | some s => s

/-- The value the csv module writes for a cell: None becomes the empty
field, a string is written as is. -/
def csvField : Option String → String
  | none => ""
  | some s => s

/-- Python str.lower() on the ASCII severity tags. -/
def pylower (s : String) : String := String.mk (s.data.map Char.toLower)

/-- Helper for pytitle: walks the characters tracking whether the
previous character was alphabetic. -/
def pytitleGo : Bool → List Char → List Char
  | _, [] => []
  | prevAlpha, c :: cs =>
    if c.isAlpha then
      (if prevAlpha then c.toLower else c.toUpper) :: pytitleGo true cs
    else
      c :: pytitleGo false cs

/-- Python str.title(): the first letter of every alphabetic run is
uppercased, the rest lowercased. -/
def pytitle (s : String) : String := String.mk (pytitleGo false s.data)

/-- Observations of datetime.now() used by the HTML renderer: the
strftime("%Y-%m-%d %H:%M:%S") string interpolated into the Report
Generated field, and the calendar year interpolated into the footer. -/
structure Dtm where
  fmtStr : String
  year : Int
deriving Repr, DecidableEq
/-- Literal text of the HTML template (report_generator.py). -/
def htmlA1 : String := "\n<!DOCTYPE html>\n<html lang=\"en\">\n<head>\n    <meta charset=\"UTF-8\">\n    <meta name=\"viewport\" content=\"width=device-width, initial-scale=1.0\">\n    <title>Security Scan Report - "

/-- Literal text of the HTML template (report_generator.py). -/
def htmlA2 : String := "</title>\n    <style>\n        * \x7b\n            margin: 0;\n            padding: 0;\n            box-sizing: border-box;\n        \x7d\n        \n        body \x7b\n            font-family: \x27Segoe UI\x27, Tahoma, Geneva, Verdana, sans-serif;\n            background: linear-gradient(135deg, #667eea 0%, #764ba2 100%);\n            padding: 40px 20px;\n            min-height: 100vh;\n        \x7d\n        \n        .container \x7b\n            max-width: 1200px;\n            margin: 0 auto;\n            background: white;\n            border-radius: 20px;\n            box-shadow: 0 20px 60px rgba(0,0,0,0.3);\n            overflow: hidden;\n        \x7d\n        \n        .header \x7b\n            background: linear-gradient(135deg, #667eea 0%, #764ba2 100%);\n            color: white;\n            padding: 60px 40px;\n            text-align: center;\n            position: relative;\n            overflow: hidden;\n        \x7d\n        \n        .header::before \x7b\n            content: \x27\x27;\n            position: absolute;\n            top: -50%;\n            left: -50%;\n            width: 200%;\n            height: 200%;\n            background: radial-gradient(circle, rgba(255,255,255,0.1) 0%, transparent 70%);\n            animation: pulse 15s ease-in-out infinite;\n        \x7d\n        \n        @keyframes pulse \x7b\n            0%, 100% \x7b transform: scale(1); \x7d\n            50% \x7b transform: scale(1.1); \x7d\n        \x7d\n        \n        .header h1 \x7b\n            font-size: 3em;\n            margin-bottom: 10px;\n            text-shadow: 2px 2px 4px rgba(0,0,0,0.3);\n            position: relative;\n            z-index: 1;\n        \x7d\n        \n        .header .subtitle \x7b\n            font-size: 1.2em;\n            opacity: 0.9;\n            position: relative;\n            z-index: 1;\n        \x7d\n        \n        .summary \x7b\n            display: grid;\n            grid-template-columns: repeat(auto-fit, minmax(250px, 1fr));\n            gap: 30px;\n            padding: 40px;\n            background: #f8f9fa;\n        \x7d\n        \n        .stat-card \x7b\n            background: white;\n            padding: 30px;\n            border-radius: 15px;\n            box-shadow: 0 10px 30px rgba(0,0,0,0.1);\n            transform: translateY(0);\n            transition: all 0.3s ease;\n            position: relative;\n            overflow: hidden;\n        \x7d\n        \n        .stat-card::before \x7b\n            content: \x27\x27;\n            position: absolute;\n            top: 0;\n            left: 0;\n            width: 100%;\n            height: 5px;\n        \x7d\n        \n        .stat-card.total::before \x7b background: linear-gradient(90deg, #667eea, #764ba2); \x7d\n        .stat-card.high::before \x7b background: linear-gradient(90deg, #f093fb, #f5576c); \x7d\n        .stat-card.medium::before \x7b background: linear-gradient(90deg, #ffecd2, #fcb69f); \x7d\n        .stat-card.low::before \x7b background: linear-gradient(90deg, #a8edea, #fed6e3); \x7d\n        \n        .stat-card:hover \x7b\n            transform: translateY(-10px);\n            box-shadow: 0 15px 40px rgba(0,0,0,0.2);\n        \x7d\n        \n        .stat-card h3 \x7b\n            font-size: 0.9em;\n            color: #666;\n            margin-bottom: 10px;\n            text-transform: uppercase;\n            letter-spacing: 1px;\n        \x7d\n        \n        .stat-card .number \x7b\n            font-size: 3em;\n            font-weight: bold;\n            background: linear-gradient(135deg, #667eea 0%, #764ba2 100%);\n            -webkit-background-clip: text;\n            -webkit-text-fill-color: transparent;\n        \x7d\n        \n        .stat-card.high .number \x7b\n            background: linear-gradient(135deg, #f093fb 0%, #f5576c 100%);\n            -webkit-background-clip: text;\n            -webkit-text-fill-color: transparent;\n        \x7d\n        \n        .stat-card.medium .number \x7b\n            background: linear-gradient(135deg, #ffecd2 0%, #fcb69f 100%);\n            -webkit-background-clip: text;\n            -webkit-text-fill-color: transparent;\n        \x7d\n        \n        .stat-card.low .number \x7b\n            background: linear-gradient(135deg, #a8edea 0%, #fed6e3 100%);\n            -webkit-background-clip: text;\n            -webkit-text-fill-color: transparent;\n        \x7d\n        \n        .info-section \x7b\n            padding: 40px;\n            background: white;\n        \x7d\n        \n        .info-grid \x7b\n            display: grid;\n            grid-template-columns: repeat(auto-fit, minmax(300px, 1fr));\n            gap: 20px;\n            margin-bottom: 40px;\n        \x7d\n        \n        .info-item \x7b\n            padding: 20px;\n            background: #f8f9fa;\n            border-radius: 10px;\n            border-left: 4px solid #667eea;\n        \x7d\n        \n        .info-item label \x7b\n            font-weight: bold;\n            color: #667eea;\n            display: block;\n            margin-bottom: 5px;\n        \x7d\n        \n        .info-item value \x7b\n            color: #333;\n        \x7d\n        \n        .vulnerabilities \x7b\n            padding: 40px;\n            background: white;\n        \x7d\n        \n        .section-title \x7b\n            font-size: 2em;\n            margin-bottom: 30px;\n            color: #333;\n            text-align: center;\n            position: relative;\n            padding-bottom: 15px;\n        \x7d\n        \n        .section-title::after \x7b\n            content: \x27\x27;\n            position: absolute;\n            bottom: 0;\n            left: 50%;\n            transform: translateX(-50%);\n            width: 100px;\n            height: 4px;\n            background: linear-gradient(90deg, #667eea, #764ba2);\n            border-radius: 2px;\n        \x7d\n        \n        .vuln-card \x7b\n            background: white;\n            border-radius: 15px;\n            padding: 30px;\n            margin-bottom: 30px;\n            box-shadow: 0 5px 20px rgba(0,0,0,0.1);\n            border-left: 6px solid #ddd;\n            transition: all 0.3s ease;\n        \x7d\n        \n        .vuln-card:hover \x7b\n            box-shadow: 0 10px 30px rgba(0,0,0,0.15);\n            transform: translateX(5px);\n        \x7d\n        \n        .vuln-card.high \x7b border-left-color: #f5576c; \x7d\n        .vuln-card.medium \x7b border-left-color: #fcb69f; \x7d\n        .vuln-card.low \x7b border-left-color: #a8edea; \x7d\n        \n        .vuln-header \x7b\n            display: flex;\n            justify-content: space-between;\n            align-items: center;\n            margin-bottom: 20px;\n        \x7d\n        \n        .vuln-title \x7b\n            font-size: 1.5em;\n            color: #333;\n            font-weight: bold;\n        \x7d\n        \n        .severity-badge \x7b\n            padding: 8px 20px;\n            border-radius: 25px;\n            font-weight: bold;\n            font-size: 0.9em;\n            text-transform: uppercase;\n            letter-spacing: 1px;\n            box-shadow: 0 4px 10px rgba(0,0,0,0.2);\n        \x7d\n        \n        .severity-badge.high \x7b\n            background: linear-gradient(135deg, #f093fb 0%, #f5576c 100%);\n            color: white;\n        \x7d\n        \n        .severity-badge.medium \x7b\n            background: linear-gradient(135deg, #ffecd2 0%, #fcb69f 100%);\n            color: #8B4513;\n        \x7d\n        \n        .severity-badge.low \x7b\n            background: linear-gradient(135deg, #a8edea 0%, #fed6e3 100%);\n            color: #333;\n        \x7d\n        \n        .vuln-content \x7b\n            color: #666;\n            line-height: 1.8;\n        \x7d\n        \n        .vuln-content p \x7b\n            margin-bottom: 15px;\n        \x7d\n        \n        .vuln-content strong \x7b\n            color: #333;\n            display: inline-block;\n            margin-right: 10px;\n        \x7d\n        \n        .solution-box \x7b\n            background: linear-gradient(135deg, #d4fc79 0%, #96e6a1 100%);\n            padding: 20px;\n            border-radius: 10px;\n            margin-top: 20px;\n            border-left: 4px solid #4CAF50;\n        \x7d\n        \n        .solution-box strong \x7b\n            color: #2e7d32;\n            font-size: 1.1em;\n        \x7d\n        \n        .footer \x7b\n            background: #2c3e50;\n            color: white;\n            padding: 40px;\n            text-align: center;\n        \x7d\n        \n        .footer p \x7b\n            margin-bottom: 10px;\n            opacity: 0.8;\n        \x7d\n        \n        .btn-3d \x7b\n            display: inline-block;\n            padding: 15px 40px;\n            margin: 10px;\n            border-radius: 50px;\n            font-weight: bold;\n            text-decoration: none;\n            color: white;\n            box-shadow: 0 8px 15px rgba(0,0,0,0.3);\n            transition: all 0.3s ease;\n            position: relative;\n            overflow: hidden;\n        \x7d\n        \n        .btn-3d::before \x7b\n            content: \x27\x27;\n            position: absolute;\n            top: 0;\n            left: -100%;\n            width: 100%;\n            height: 100%;\n            background: rgba(255,255,255,0.2);\n            transition: all 0.3s ease;\n        \x7d\n        \n        .btn-3d:hover::before \x7b\n            left: 100%;\n        \x7d\n        \n        .btn-3d:hover \x7b\n            transform: translateY(-5px);\n            box-shadow: 0 15px 30px rgba(0,0,0,0.4);\n        \x7d\n        \n        .btn-3d:active \x7b\n            transform: translateY(-2px);\n            box-shadow: 0 5px 10px rgba(0,0,0,0.3);\n        \x7d\n        \n        .btn-primary \x7b\n            background: linear-gradient(135deg, #667eea 0%, #764ba2 100%);\n        \x7d\n        \n        .btn-success \x7b\n            background: linear-gradient(135deg, #11998e 0%, #38ef7d 100%);\n        \x7d\n        \n        .btn-danger \x7b\n            background: linear-gradient(135deg, #f093fb 0%, #f5576c 100%);\n        \x7d\n        \n        .action-buttons \x7b\n            text-align: center;\n            padding: 40px;\n            background: #f8f9fa;\n        \x7d\n        \n        @media print \x7b\n            .action-buttons, .btn-3d \x7b display: none; \x7d\n            body \x7b background: white; \x7d\n            .container \x7b box-shadow: none; \x7d\n        \x7d\n    </style>\n</head>\n<body>\n    <div class=\"container\">\n        <!-- Header -->\n        <div class=\"header\">\n            <h1>\uf8ff\u00fc\u00f5\u00b0\u00d4\u220f\u00e8 SECURITY SCAN REPORT</h1>\n            <p class=\"subtitle\">Comprehensive Vulnerability Assessment</p>\n        </div>\n        \n        <!-- Summary Cards -->\n        <div class=\"summary\">\n            <div class=\"stat-card total\">\n                <h3>Total Issues</h3>\n                <div class=\"number\">"

/-- Literal text of the HTML template (report_generator.py). -/
def htmlA3 : String := "</div>\n            </div>\n            <div class=\"stat-card high\">\n                <h3>High Risk</h3>\n                <div class=\"number\">"

/-- Literal text of the HTML template (report_generator.py). -/
def htmlA4 : String := "</div>\n            </div>\n            <div class=\"stat-card medium\">\n                <h3>Medium Risk</h3>\n                <div class=\"number\">"

/-- Literal text of the HTML template (report_generator.py). -/
def htmlA5 : String := "</div>\n            </div>\n            <div class=\"stat-card low\">\n                <h3>Low Risk</h3>\n                <div class=\"number\">"

/-- Literal text of the HTML template (report_generator.py). -/
def htmlA6 : String := "</div>\n            </div>\n        </div>\n        \n        <!-- Scan Information -->\n        <div class=\"info-section\">\n            <h2 class=\"section-title\">Scan Information</h2>\n            <div class=\"info-grid\">\n                <div class=\"info-item\">\n                    <label>Target URL:</label>\n                    <value>"

/-- Literal text of the HTML template (report_generator.py). -/
def htmlA7 : String := "</value>\n                </div>\n                <div class=\"info-item\">\n                    <label>Scan Type:</label>\n                    <value>"

/-- Literal text of the HTML template (report_generator.py). -/
def htmlA8 : String := "</value>\n                </div>\n                <div class=\"info-item\">\n                    <label>Start Time:</label>\n                    <value>"

/-- Literal text of the HTML template (report_generator.py). -/
def htmlA9 : String := "</value>\n                </div>\n                <div class=\"info-item\">\n                    <label>End Time:</label>\n                    <value>"

/-- Literal text of the HTML template (report_generator.py). -/
def htmlA10 : String := "</value>\n                </div>\n                <div class=\"info-item\">\n                    <label>Status:</label>\n                    <value>"

/-- Literal text of the HTML template (report_generator.py). -/
def htmlA11 : String := "</value>\n                </div>\n                <div class=\"info-item\">\n                    <label>Report Generated:</label>\n                    <value>"

/-- Literal text of the HTML template (report_generator.py). -/
def htmlA12 : String := "</value>\n                </div>\n            </div>\n        </div>\n        \n        <!-- Vulnerabilities -->\n        <div class=\"vulnerabilities\">\n            <h2 class=\"section-title\">Detailed Findings</h2>\n"

/-- Literal text of the HTML template (report_generator.py). -/
def htmlB1 : String := "\n            <div class=\"vuln-card "

/-- Literal text of the HTML template (report_generator.py). -/
def htmlB2 : String := "\">\n                <div class=\"vuln-header\">\n                    <div class=\"vuln-title\">"

/-- Literal text of the HTML template (report_generator.py). -/
def htmlB3 : String := ". "

/-- Literal text of the HTML template (report_generator.py). -/
def htmlB4 : String := "</div>\n                    <div class=\"severity-badge "

/-- Literal text of the HTML template (report_generator.py). -/
def htmlB5 : String := "\">"

/-- Literal text of the HTML template (report_generator.py). -/
def htmlB6 : String := "</div>\n                </div>\n                <div class=\"vuln-content\">\n                    <p><strong>\uf8ff\u00fc\u00ee\u00e7 Description:</strong> "

/-- Literal text of the HTML template (report_generator.py). -/
def htmlB7 : String := "</p>\n                    <p><strong>\uf8ff\u00fc\u00ec\u00e7 Location:</strong> "

/-- Literal text of the HTML template (report_generator.py). -/
def htmlB8 : String := "</p>\n                    <p><strong>\uf8ff\u00fc\u00e9\u00d8 Confidence:</strong> "

/-- Literal text of the HTML template (report_generator.py). -/
def htmlB9 : String := "</p>\n"

/-- Literal text of the HTML template (report_generator.py). -/
def htmlC1 : String := "\n                    <div class=\"solution-box\">\n                        <p><strong>\uf8ff\u00fc\u00ed\u00b0 Recommended Solution:</strong></p>\n                        <p>"

/-- Literal text of the HTML template (report_generator.py). -/
def htmlC2 : String := "</p>\n                    </div>\n"

/-- Literal text of the HTML template (report_generator.py). -/
def htmlD1 : String := "\n                    <p><strong>\uf8ff\u00fc\u00ec\u00f6 Reference:</strong> "

/-- Literal text of the HTML template (report_generator.py). -/
def htmlD2 : String := "</p>\n"

/-- Literal text of the HTML template (report_generator.py). -/
def htmlE1 : String := "\n                </div>\n            </div>\n"

/-- Literal text of the HTML template (report_generator.py). -/
def htmlF1 : String := "\n        </div>\n        \n        <!-- Action Buttons -->\n        <div class=\"action-buttons\">\n            <a href=\"#\" onclick=\"window.print(); return false;\" class=\"btn-3d btn-primary\">\uf8ff\u00fc\u00f1\u00ae\u00d4\u220f\u00e8 Print Report</a>\n            <a href=\"#\" onclick=\"window.location.reload();\" class=\"btn-3d btn-success\">\uf8ff\u00fc\u00ee\u00d1 Refresh</a>\n            <a href=\"#\" class=\"btn-3d btn-danger\">\uf8ff\u00fc\u00ec\u00df Email Report</a>\n        </div>\n        \n        <!-- Footer -->\n        <div class=\"footer\">\n            <p><strong>Generated by Web Security Scanner v1.0</strong></p>\n            <p>Powered by OWASP ZAP | Report ID: "

/-- Literal text of the HTML template (report_generator.py). -/
def htmlF2 : String := "</p>\n            <p>\u00ac\u00a9 "

/-- Literal text of the HTML template (report_generator.py). -/
def htmlF3 : String := " - All Rights Reserved</p>\n        </div>\n    </div>\n    \n    <script>\n        // Add smooth scroll\n        document.querySelectorAll(\x27a[href^=\"#\"]\x27).forEach(anchor => \x7b\n            anchor.addEventListener(\x27click\x27, function (e) \x7b\n                e.preventDefault();\n                document.querySelector(this.getAttribute(\x27href\x27)).scrollIntoView(\x7b\n                    behavior: \x27smooth\x27\n                \x7d);\n            \x7d);\n        \x7d);\n        \n        // Add animation on scroll\n        const observerOptions = \x7b\n            threshold: 0.1,\n            rootMargin: \x270px 0px -100px 0px\x27\n        \x7d;\n        \n        const observer = new IntersectionObserver((entries) => \x7b\n            entries.forEach(entry => \x7b\n                if (entry.isIntersecting) \x7b\n                    entry.target.style.opacity = \x271\x27;\n                    entry.target.style.transform = \x27translateY(0)\x27;\n                \x7d\n            \x7d);\n        \x7d, observerOptions);\n        \n        document.querySelectorAll(\x27.vuln-card\x27).forEach(card => \x7b\n            card.style.opacity = \x270\x27;\n            card.style.transform = \x27translateY(30px)\x27;\n            card.style.transition = \x27all 0.6s ease\x27;\n            observer.observe(card);\n        \x7d);\n    </script>\n</body>\n</html>\n"
/-- One vulnerability card of the HTML report: the body of the loop at
report_generator.py lines 530 to 560, including the conditional
solution box and reference line. idx is the 1-based enumerate index. -/
def htmlVulnBlock (idx : Nat) (v : Finding) : String :=
  htmlB1 ++ pylower v.severity ++ htmlB2 ++ toString idx ++ htmlB3 ++
    v.name ++ htmlB4 ++ pylower v.severity ++ htmlB5 ++ v.severity ++
    htmlB6 ++ v.description ++ htmlB7 ++ v.url ++ htmlB8 ++ v.confidence ++
    htmlB9 ++
    (if pytruthy v.solution then htmlC1 ++ pystrOpt v.solution ++ htmlC2 else "") ++
    (if pytruthy v.reference then htmlD1 ++ pystrOpt v.reference ++ htmlD2 else "") ++
    htmlE1

/-- The vulnerability cards of the HTML report, one per finding, in
stored order, carrying the running 1-based index of the enumerate. -/
def htmlVulnBlocks : Nat → List Finding → List String
  | _, [] => []
  | idx, v :: rest => htmlVulnBlock idx v :: htmlVulnBlocks (idx + 1) rest

/-- The segments of the HTML document up to the findings section: the
static template text alternating with the interpolated values, in the
order of the template. -/
def htmlHeadSegments (d : ScanData) (now : Dtm) : List String :=
  [htmlA1, d.target_url, htmlA2, toString d.total_alerts, htmlA3,
   toString d.high_risk, htmlA4, toString d.medium_risk, htmlA5,
   toString d.low_risk, htmlA6, d.target_url, htmlA7,
   pytitle d.scan_type, htmlA8, d.start_time, htmlA9, d.end_time,
   htmlA10, pytitle d.status, htmlA11, now.fmtStr, htmlA12]

/-- The segments of the HTML document after the findings section: the
footer with the interpolated report id and copyright year. -/
def htmlTailSegments (scan_id : Int) (now : Dtm) : List String :=
  [htmlF1, toString scan_id, htmlF2, toString now.year, htmlF3]

/-- All segments of the HTML document in order; their concatenation is
the exact file content the HTML renderer writes. -/
def htmlSegments (d : ScanData) (scan_id : Int) (now : Dtm) : List String :=
  htmlHeadSegments d now ++ htmlVulnBlocks 1 d.vulnerabilities ++
    htmlTailSegments scan_id now

/-- The full text written to the HTML output file. -/
def htmlContent (d : ScanData) (scan_id : Int) (now : Dtm) : String :=
  String.join (htmlSegments d scan_id now)

/-- Index, within htmlSegments, of the value of the single Report
Generated field (the strftime string). -/
def reportGeneratedSlot : Nat := 21

/-- Index, within htmlSegments, of the copyright year interpolated into
the footer; it sits after the 23 head segments and the per-finding
cards, at offset 3 of the tail. -/
def footerYearSlot (d : ScanData) : Nat := 23 + d.vulnerabilities.length + 3

/-- Outcome of one renderer invocation: the Boolean the Python function
returns, the output file it wrote (name and modelled content, None when
nothing was written), and the console messages it printed. -/
structure RenderResult (α : Type) where
  ok : Bool
  file : Option (String × α)
  msgs : List String
deriving Repr, DecidableEq

/-- Availability of the optional third-party encoders, the import-time
flags PDF_AVAILABLE, DOCX_AVAILABLE and EXCEL_AVAILABLE. -/
structure Avail where
  pdf : Bool
  docx : Bool
  excel : Bool
deriving Repr, DecidableEq

/-- Flowable elements of the reportlab story assembled by
generate_pdf_report. -/
inductive PdfElem where
  | paragraph (text : String) (style : String)
  | spacer (w h : Nat)
  | tbl (rows : List (List String))
  | pageBreak
deriving Repr, DecidableEq

/-- The story elements generate_pdf_report appends for one finding:
heading, description, location, conditional solution, spacer. -/
def pdfVulnChunk (idx : Nat) (v : Finding) : List PdfElem :=
  [PdfElem.paragraph ("<b>" ++ toString idx ++ ". " ++ v.name ++ "</b> [" ++
      v.severity ++ "]") ("Heading3"),
   PdfElem.paragraph ("<b>Description:</b> " ++ v.description) ("Normal"),
   PdfElem.paragraph ("<b>Location:</b> " ++ v.url) ("Normal")] ++
  (if pytruthy v.solution then
    [PdfElem.paragraph ("<b>Solution:</b> " ++ pystrOpt v.solution) ("Normal")]
   else []) ++
  [PdfElem.spacer 1 20]

/-- The per-finding story chunks, one per finding, in stored order. -/
def pdfVulnChunks : Nat → List Finding → List (List PdfElem)
  | _, [] => []
  | idx, v :: rest => pdfVulnChunk idx v :: pdfVulnChunks (idx + 1) rest

/-- The complete reportlab story: title, summary table, scan info
table, page break, findings heading, then the per-finding chunks. -/
def pdfStory (d : ScanData) : List PdfElem :=
  [PdfElem.paragraph ("\uf8ff\u00fc\u00f5\u00b0\u00d4\u220f\u00e8 SECURITY SCAN REPORT") ("CustomTitle"),
   PdfElem.spacer 1 20,
   PdfElem.tbl [["Metric", "Count"],
                ["Total Issues", toString d.total_alerts],
                ["High Risk", toString d.high_risk],
                ["Medium Risk", toString d.medium_risk],
                ["Low Risk", toString d.low_risk]],
   PdfElem.spacer 1 30,
   PdfElem.paragraph ("Scan Information") ("CustomHeading"),
   PdfElem.tbl [["Target URL:", d.target_url],
                ["Scan Type:", pytitle d.scan_type],
                ["Start Time:", d.start_time],
                ["End Time:", d.end_time],
                ["Status:", pytitle d.status]],
   PdfElem.pageBreak,
   PdfElem.paragraph ("Detailed Findings") ("CustomHeading"),
   PdfElem.spacer 1 20] ++
  (pdfVulnChunks 1 d.vulnerabilities).flatten

/-- Elements of the python-docx document assembled by
generate_docx_report. -/
inductive DocxElem where
  | heading (text : String) (level : Nat)
  | para (text : String)
  | tbl (cells : List (List String))
  | pageBreak
deriving Repr, DecidableEq

/-- The document elements generate_docx_report appends for one finding:
heading, severity, description, location, conditional solution, and a
trailing empty paragraph. -/
def docxVulnChunk (idx : Nat) (v : Finding) : List DocxElem :=
  [DocxElem.heading (toString idx ++ ". " ++ v.name) 2,
   DocxElem.para ("Severity: " ++ v.severity),
   DocxElem.para ("Description: " ++ v.description),
   DocxElem.para ("Location: " ++ v.url)] ++
  (if pytruthy v.solution then
    [DocxElem.para ("Solution: " ++ pystrOpt v.solution)]
   else []) ++
  [DocxElem.para ""]

/-- The per-finding docx chunks, one per finding, in stored order. -/
def docxVulnChunks : Nat → List Finding → List (List DocxElem)
  | _, [] => []
  | idx, v :: rest => docxVulnChunk idx v :: docxVulnChunks (idx + 1) rest

/-- The complete docx document: title, summary heading, 5x2 summary
table, page break, findings heading, then the per-finding chunks. -/
def docxDoc (d : ScanData) : List DocxElem :=
  [DocxElem.heading ("SECURITY SCAN REPORT") 0,
   DocxElem.heading ("Summary") 1,
   DocxElem.tbl [["Total Issues", toString d.total_alerts],
                 ["High Risk", toString d.high_risk],
                 ["Medium Risk", toString d.medium_risk],
                 ["Low Risk", toString d.low_risk],
                 ["Target URL", d.target_url]],
   DocxElem.pageBreak,
   DocxElem.heading ("Detailed Findings") 1] ++
  (docxVulnChunks 1 d.vulnerabilities).flatten

/-- Value of one openpyxl cell: string, integer, or empty (None). -/
inductive CellVal where
  | s (v : String)
  | i (v : Int)
  | nullv
deriving Repr, DecidableEq

/-- The cell written for a nullable string column in the Excel sheet:
None leaves the cell empty. -/
def cellOfOpt : Option String → CellVal
  | none => CellVal.nullv
  | some s => CellVal.s s

/-- The openpyxl workbook assembled by generate_excel_report: the
summary-sheet cells by coordinate, and the rows of the Vulnerabilities
sheet (header row first). -/
structure ExcelWb where
  summaryCells : List (String × CellVal)
  vulnRows : List (List CellVal)
deriving Repr, DecidableEq

/-- The data rows appended to the Vulnerabilities sheet, one per
finding, in stored order, with the running 1-based index. -/
def excelVulnRows : Nat → List Finding → List (List CellVal)
  | _, [] => []
  | idx, v :: rest =>
      [CellVal.i (Int.ofNat idx), CellVal.s v.name, CellVal.s v.severity,
       CellVal.s v.confidence, CellVal.s v.url, CellVal.s v.description,
       cellOfOpt v.solution] :: excelVulnRows (idx + 1) rest

/-- The complete Excel workbook for one scan. -/
def excelWb (d : ScanData) : ExcelWb :=
  { summaryCells :=
      [("A1", CellVal.s ("SECURITY SCAN REPORT")),
       ("A3", CellVal.s ("Target URL")), ("B3", CellVal.s d.target_url),
       ("A4", CellVal.s ("Scan Type")), ("B4", CellVal.s d.scan_type),
       ("A5", CellVal.s ("Total Issues")), ("B5", CellVal.i d.total_alerts),
       ("A6", CellVal.s ("High Risk")), ("B6", CellVal.i d.high_risk),
       ("A7", CellVal.s ("Medium Risk")), ("B7", CellVal.i d.medium_risk),
       ("A8", CellVal.s ("Low Risk")), ("B8", CellVal.i d.low_risk)],
    vulnRows :=
      (["#", "Name", "Severity", "Confidence", "URL", "Description",
        "Solution"].map CellVal.s) :: excelVulnRows 1 d.vulnerabilities }

/-- The rows handed to csv.writer by generate_csv_report: the header
row, then one six-column row per finding, in stored order. The stored
reference column is not written. -/
def csvRows (d : ScanData) : List (List String) :=
  ["Vulnerability Name", "Severity", "Confidence", "URL", "Description",
   "Solution"] ::
  d.vulnerabilities.map (fun v =>
    [v.name, v.severity, v.confidence, v.url, v.description,
     csvField v.solution])

/-- The console message printed when a scan id is not found. -/
def notFoundMsg (scan_id : Int) : String :=
  "[!] Scan " ++ toString scan_id ++ " not found"

/-- Embeds generate_html_report: fetch the scan data; when absent,
print the not-found message and return False without writing; otherwise
write the assembled HTML text and return True. -/
def generate_html_report (store : Store) (scan_id : Int)
    (output_file : String) (now : Dtm) : RenderResult String :=
  match getScanData store scan_id with
  | none => { ok := false, file := none, msgs := [notFoundMsg scan_id] }
  | some data =>
      { ok := true,
        file := some (output_file, htmlContent data scan_id now),
        msgs := ["[+] VIP HTML Report generated: " ++ output_file] }

/-- Embeds generate_pdf_report: refuse when PDF_AVAILABLE is False;
otherwise fetch the scan data; when absent return False without
writing; otherwise build the story and write the document. -/
def generate_pdf_report (store : Store) (avail : Avail) (scan_id : Int)
    (output_file : String) : RenderResult (List PdfElem) :=
  if !avail.pdf then
    { ok := false, file := none,
      msgs := ["[!] PDF generation not available. Install: pip install reportlab"] }
  else
    match getScanData store scan_id with
    | none => { ok := false, file := none, msgs := [notFoundMsg scan_id] }
    | some data =>
        { ok := true, file := some (output_file, pdfStory data),
          msgs := ["[+] PDF Report generated: " ++ output_file] }

/-- Embeds generate_json_report: fetch the scan data; when absent
return False without writing; otherwise json.dump the aggregate
dictionary to the output file. -/
def generate_json_report (store : Store) (scan_id : Int)
    (output_file : String) : RenderResult ScanData :=
  match getScanData store scan_id with
  | none => { ok := false, file := none, msgs := [notFoundMsg scan_id] }
  | some data =>
      { ok := true, file := some (output_file, data),
        msgs := ["[+] JSON Report generated: " ++ output_file] }

/-- Embeds generate_csv_report: fetch the scan data; when absent return
False without writing; otherwise write the header row and one row per
finding. -/
def generate_csv_report (store : Store) (scan_id : Int)
    (output_file : String) : RenderResult (List (List String)) :=
  match getScanData store scan_id with
  | none => { ok := false, file := none, msgs := [notFoundMsg scan_id] }
  | some data =>
      { ok := true, file := some (output_file, csvRows data),
        msgs := ["[+] CSV Report generated: " ++ output_file] }

/-- Embeds generate_docx_report: refuse when DOCX_AVAILABLE is False;
otherwise fetch the scan data; when absent return False without
writing; otherwise build and save the document. -/
def generate_docx_report (store : Store) (avail : Avail) (scan_id : Int)
    (output_file : String) : RenderResult (List DocxElem) :=
  if !avail.docx then
    { ok := false, file := none,
      msgs := ["[!] DOCX generation not available. Install: pip install python-docx"] }
  else
    match getScanData store scan_id with
    | none => { ok := false, file := none, msgs := [notFoundMsg scan_id] }
    | some data =>
        { ok := true, file := some (output_file, docxDoc data),
          msgs := ["[+] DOCX Report generated: " ++ output_file] }

/-- Embeds generate_excel_report: refuse when EXCEL_AVAILABLE is False;
otherwise fetch the scan data; when absent return False without
writing; otherwise build and save the workbook. -/
def generate_excel_report (store : Store) (avail : Avail) (scan_id : Int)
    (output_file : String) : RenderResult ExcelWb :=
  if !avail.excel then
    { ok := false, file := none,
      msgs := ["[!] Excel generation not available. Install: pip install openpyxl"] }
  else
    match getScanData store scan_id with
    | none => { ok := false, file := none, msgs := [notFoundMsg scan_id] }
    | some data =>
        { ok := true, file := some (output_file, excelWb data),
          msgs := ["[+] Excel Report generated: " ++ output_file] }

/-- Tag for the renderer a formats entry points at. -/
inductive Fmt where
  | html
  | json
  | csv
  | pdf
  | docx
  | excel
deriving Repr, DecidableEq

/-- Invoking one renderer from the orchestrator loop: the Boolean the
renderer returns for the given scan id and file name. -/
def fmtRun (store : Store) (avail : Avail) (now : Dtm) (scan_id : Int) :
    Fmt → String → Bool
  | Fmt.html, f => (generate_html_report store scan_id f now).ok
  | Fmt.json, f => (generate_json_report store scan_id f).ok
  | Fmt.csv, f => (generate_csv_report store scan_id f).ok
  | Fmt.pdf, f => (generate_pdf_report store avail scan_id f).ok
  | Fmt.docx, f => (generate_docx_report store avail scan_id f).ok
  | Fmt.excel, f => (generate_excel_report store avail scan_id f).ok

/-- The formats dictionary of generate_all_formats, in insertion order:
HTML, JSON and CSV always, then PDF, DOCX and Excel if the matching
encoder is available. -/
def allFormatsList (avail : Avail) (base_name : String) :
    List (String × Fmt × String) :=
  [("HTML", Fmt.html, base_name ++ ".html"),
   ("JSON", Fmt.json, base_name ++ ".json"),
   ("CSV", Fmt.csv, base_name ++ ".csv")] ++
  (if avail.pdf then [("PDF", Fmt.pdf, base_name ++ ".pdf")] else []) ++
  (if avail.docx then [("DOCX", Fmt.docx, base_name ++ ".docx")] else []) ++
  (if avail.excel then [("Excel", Fmt.excel, base_name ++ ".xlsx")] else [])

/-- Embeds generate_all_formats: invoke every entry of the formats
dictionary once, in order, and collect the per-format success flag into
the returned results mapping. -/
def generate_all_formats (store : Store) (avail : Avail) (scan_id : Int)
    (base_name : String) (now : Dtm) : List (String × Bool) :=
  (allFormatsList avail base_name).map
    (fun e => (e.1, fmtRun store avail now scan_id e.2.1 e.2.2))
/-- The worked example of the specification: scan 42 with three
findings of severities High, Medium and Low and aggregate counts
3/1/1/1. -/
def scanRow42 : ScanRow :=
  { id := 42, target_url := "http://testphp.vulnweb.com",
    scan_type := "quick", start_time := "2025-01-01 10:00:00",
    end_time := "2025-01-01 10:05:00", total_alerts := 3, high_risk := 1,
    medium_risk := 1, low_risk := 1, status := "completed" }

/-- First finding of scan 42. -/
def vulnRow1 : VulnRow :=
  { id := 1, scan_id := 42, name := "SQL Injection", severity := "High",
    confidence := "High",
    url := "http://testphp.vulnweb.com/artists.php?artist=1",
    description := "SQL injection may be possible.",
    solution := some "Use parameterized queries.",
    reference := some "https://owasp.org/www-community/attacks/SQL_Injection" }

/-- Second finding of scan 42. -/
def vulnRow2 : VulnRow :=
  { id := 2, scan_id := 42, name := "Reflected XSS", severity := "Medium",
    confidence := "Medium",
    url := "http://testphp.vulnweb.com/search.php?test=query",
    description := "User input is reflected without encoding.",
    solution := some "Encode all user-controlled output.",
    reference := none }

/-- Third finding of scan 42; its solution and reference are NULL. -/
def vulnRow3 : VulnRow :=
  { id := 3, scan_id := 42, name := "Missing Security Header",
    severity := "Low", confidence := "Medium",
    url := "http://testphp.vulnweb.com/",
    description := "The X-Content-Type-Options header is missing.",
    solution := none, reference := none }

/-- Store holding scan 42 and its three findings. -/
def store42 : Store := { scans := [scanRow42], vulns := [vulnRow1, vulnRow2, vulnRow3] }

/-- A store with no scans at all. -/
def emptyStore : Store := { scans := [], vulns := [] }

/-- A completed scan with zero findings. -/
def scanRow9 : ScanRow :=
  { id := 9, target_url := "http://clean.example.test", scan_type := "full",
    start_time := "2025-02-02 09:00:00", end_time := "2025-02-02 09:30:00",
    total_alerts := 0, high_risk := 0, medium_risk := 0, low_risk := 0,
    status := "completed" }

/-- Store holding scan 9, which has no finding rows. -/
def storeNoVulns : Store := { scans := [scanRow9], vulns := [] }

/-- A scan whose stored total_alerts (5) disagrees with its single
finding row. -/
def scanRow7 : ScanRow :=
  { id := 7, target_url := "http://drift.example.test", scan_type := "quick",
    start_time := "2025-03-03 08:00:00", end_time := "2025-03-03 08:10:00",
    total_alerts := 5, high_risk := 2, medium_risk := 2, low_risk := 1,
    status := "completed" }

/-- The single finding row of scan 7. -/
def vulnRow7 : VulnRow :=
  { id := 11, scan_id := 7, name := "Server Leaks Version Information",
    severity := "Low", confidence := "High",
    url := "http://drift.example.test/", description := "The Server header reveals the version.",
    solution := some "Suppress the Server header.", reference := none }

/-- Store whose stored aggregate counts do not match its finding rows. -/
def storeMismatch : Store := { scans := [scanRow7], vulns := [vulnRow7] }

/-- A scan with one finding carrying a non-empty reference value. -/
def scanRowRef : ScanRow :=
  { id := 1, target_url := "http://example.test", scan_type := "quick",
    start_time := "2025-04-04 12:00:00", end_time := "2025-04-04 12:05:00",
    total_alerts := 1, high_risk := 0, medium_risk := 0, low_risk := 1,
    status := "completed" }

/-- The finding of scan 1; its stored reference is a distinctive URL
that appears in no other field. -/
def vulnRowRef : VulnRow :=
  { id := 10, scan_id := 1, name := "Weak Cipher", severity := "Low",
    confidence := "Medium", url := "http://example.test/tls",
    description := "Weak TLS cipher suites are enabled.",
    solution := some "Disable weak ciphers.",
    reference := some "https://refs.example/x1" }

/-- Store used by the CSV round-trip counterexample. -/
def storeRef : Store := { scans := [scanRowRef], vulns := [vulnRowRef] }

/-- Sample generation times on either side of a year boundary. -/
def dtmA : Dtm := { fmtStr := "2025-12-31 23:59:59", year := 2025 }

/-- Generation time one second after dtmA, in the next year. -/
def dtmB : Dtm := { fmtStr := "2026-01-01 00:00:00", year := 2026 }

/-- The aggregate of scan 42, used by several witnesses. -/
def d42 : ScanData := mkScanData scanRow42 (scanVulns store42 42)

/-- String concatenation is associative (on the list-of-characters
representation used by the kernel). -/
theorem strAssoc (a b c : String) : (a ++ b) ++ c = a ++ (b ++ c) := by
  rcases a with ⟨la⟩; rcases b with ⟨lb⟩; rcases c with ⟨lc⟩
  exact congrArg String.mk (List.append_assoc la lb lc)

/-- When the scan row exists, get_scan_data returns the fully populated
aggregate: every scan field copied verbatim and the complete finding
list. -/
theorem getScanData_found (store : Store) (scan_id : Int) (scan : ScanRow)
    (h : findScan store scan_id = some scan) :
    getScanData store scan_id = some (mkScanData scan (scanVulns store scan_id)) := by
  simp [getScanData, get_scan_data, h, mkScanData]

/-- When no scan row matches, get_scan_data returns the None sentinel. -/
theorem getScanData_notFound (store : Store) (scan_id : Int)
    (h : findScan store scan_id = none) :
    getScanData store scan_id = none := by
  simp [getScanData, get_scan_data, h]

/-- The HTML renderer emits one vulnerability card per finding. -/
theorem htmlVulnBlocks_length (n : Nat) (vs : List Finding) :
    (htmlVulnBlocks n vs).length = vs.length := by
  induction vs generalizing n with
  | nil => rfl
  | cons a rest ih => simp [htmlVulnBlocks, ih]

/-- The i-th vulnerability card is built from the i-th finding with the
1-based running index. -/
theorem htmlVulnBlocks_getElem (vs : List Finding) :
    ∀ (n i : Nat) (v : Finding), vs[i]? = some v →
      (htmlVulnBlocks n vs)[i]? = some (htmlVulnBlock (n + i) v) := by
  induction vs with
  | nil => intro n i v h; simp at h
  | cons a rest ih =>
      intro n i v h
      cases i with
      | zero =>
          obtain rfl : a = v := by simpa using h
          simp only [htmlVulnBlocks, List.getElem?_cons_zero, Nat.add_zero]
      | succ j =>
          simp only [List.getElem?_cons_succ] at h
          have hj := ih (n + 1) j v h
          simp only [htmlVulnBlocks, List.getElem?_cons_succ]
          rw [show n + (j + 1) = n + 1 + j by omega]
          exact hj

/-- The PDF renderer emits one story chunk per finding. -/
theorem pdfVulnChunks_length (n : Nat) (vs : List Finding) :
    (pdfVulnChunks n vs).length = vs.length := by
  induction vs generalizing n with
  | nil => rfl
  | cons a rest ih => simp [pdfVulnChunks, ih]

/-- The i-th PDF story chunk is built from the i-th finding. -/
theorem pdfVulnChunks_getElem (vs : List Finding) :
    ∀ (n i : Nat) (v : Finding), vs[i]? = some v →
      (pdfVulnChunks n vs)[i]? = some (pdfVulnChunk (n + i) v) := by
  induction vs with
  | nil => intro n i v h; simp at h
  | cons a rest ih =>
      intro n i v h
      cases i with
      | zero =>
          obtain rfl : a = v := by simpa using h
          simp only [pdfVulnChunks, List.getElem?_cons_zero, Nat.add_zero]
      | succ j =>
          simp only [List.getElem?_cons_succ] at h
          have hj := ih (n + 1) j v h
          simp only [pdfVulnChunks, List.getElem?_cons_succ]
          rw [show n + (j + 1) = n + 1 + j by omega]
          exact hj

/-- The DOCX renderer emits one element chunk per finding. -/
theorem docxVulnChunks_length (n : Nat) (vs : List Finding) :
    (docxVulnChunks n vs).length = vs.length := by
  induction vs generalizing n with
  | nil => rfl
  | cons a rest ih => simp [docxVulnChunks, ih]

/-- The i-th DOCX chunk is built from the i-th finding. -/
theorem docxVulnChunks_getElem (vs : List Finding) :
    ∀ (n i : Nat) (v : Finding), vs[i]? = some v →
      (docxVulnChunks n vs)[i]? = some (docxVulnChunk (n + i) v) := by
  induction vs with
  | nil => intro n i v h; simp at h
  | cons a rest ih =>
      intro n i v h
      cases i with
      | zero =>
          obtain rfl : a = v := by simpa using h
          simp only [docxVulnChunks, List.getElem?_cons_zero, Nat.add_zero]
      | succ j =>
          simp only [List.getElem?_cons_succ] at h
          have hj := ih (n + 1) j v h
          simp only [docxVulnChunks, List.getElem?_cons_succ]
          rw [show n + (j + 1) = n + 1 + j by omega]
          exact hj

/-- The Excel renderer appends one data row per finding. -/
theorem excelVulnRows_length (n : Nat) (vs : List Finding) :
    (excelVulnRows n vs).length = vs.length := by
  induction vs generalizing n with
  | nil => rfl
  | cons a rest ih => simp [excelVulnRows, ih]

/-- The i-th Excel data row is built from the i-th finding. -/
theorem excelVulnRows_getElem (vs : List Finding) :
    ∀ (n i : Nat) (v : Finding), vs[i]? = some v →
      (excelVulnRows n vs)[i]? = some
        [CellVal.i (Int.ofNat (n + i)), CellVal.s v.name, CellVal.s v.severity,
         CellVal.s v.confidence, CellVal.s v.url, CellVal.s v.description,
         cellOfOpt v.solution] := by
  induction vs with
  | nil => intro n i v h; simp at h
  | cons a rest ih =>
      intro n i v h
      cases i with
      | zero =>
          obtain rfl : a = v := by simpa using h
          simp only [excelVulnRows, List.getElem?_cons_zero, Nat.add_zero]
      | succ j =>
          simp only [List.getElem?_cons_succ] at h
          have hj := ih (n + 1) j v h
          simp only [excelVulnRows, List.getElem?_cons_succ]
          rw [show n + (j + 1) = n + 1 + j by omega]
          exact hj

/-- The Report Generated field sits at segment index 21 and holds the
strftime string of the generation time. -/
theorem htmlSegments_reportGenerated (d : ScanData) (scan_id : Int) (t : Dtm) :
    (htmlSegments d scan_id t)[reportGeneratedSlot]? = some t.fmtStr := rfl

/-- The footer copyright year sits after the head segments and the
vulnerability cards, at offset 3 of the tail segments. -/
theorem htmlSegments_footerYear (d : ScanData) (scan_id : Int) (t : Dtm) :
    (htmlSegments d scan_id t)[footerYearSlot d]? = some (toString t.year) := by
  have hlen : (htmlHeadSegments d t ++ htmlVulnBlocks 1 d.vulnerabilities).length
      = 23 + d.vulnerabilities.length := by
    simp only [List.length_append, htmlHeadSegments, List.length_cons,
      List.length_nil, htmlVulnBlocks_length]
  have hle : (htmlHeadSegments d t ++ htmlVulnBlocks 1 d.vulnerabilities).length
      ≤ footerYearSlot d := by rw [hlen]; unfold footerYearSlot; omega
  have h1 : (htmlSegments d scan_id t)[footerYearSlot d]?
      = (htmlTailSegments scan_id t)[footerYearSlot d -
          (htmlHeadSegments d t ++ htmlVulnBlocks 1 d.vulnerabilities).length]? := by
    unfold htmlSegments
    exact List.getElem?_append_right hle
  have h3 : footerYearSlot d -
      (htmlHeadSegments d t ++ htmlVulnBlocks 1 d.vulnerabilities).length = 3 := by
    rw [hlen]; unfold footerYearSlot; omega
  rw [h1, h3]
  rfl
/-- Claim C7: given a scan identifier, get_scan_data returns the full
scan record merged with the complete list of its findings when such a
scan exists (also when it has zero findings, so no-findings is not
mistaken for no-such-scan), and the distinct not-found variant exactly
when no such scan exists; the result is never partially populated. -/
theorem claim_C7_reader_contract (store : Store) (scan_id : Int) :
    (getScanData store scan_id = none ↔ findScan store scan_id = none) ∧
    (∀ scan, findScan store scan_id = some scan →
      getScanData store scan_id = some (mkScanData scan (scanVulns store scan_id))) ∧
    (∀ scan, findScan store scan_id = some scan → scanVulns store scan_id = [] →
      getScanData store scan_id = some (mkScanData scan [])) := by
  refine ⟨?_, ?_, ?_⟩
  · cases h : findScan store scan_id with
    | none => simp [getScanData_notFound store scan_id h]
    | some scan => simp [getScanData_found store scan_id scan h]
  · intro scan h
    exact getScanData_found store scan_id scan h
  · intro scan h hv
    rw [getScanData_found store scan_id scan h, hv]

/-- Witness for C7: scan 9 exists with zero finding rows, and the
reader returns the fully populated aggregate with an empty findings
list, not the not-found sentinel. -/
theorem claim_C7_witness :
    getScanData storeNoVulns 9 = some (mkScanData scanRow9 []) :=
  (claim_C7_reader_contract storeNoVulns 9).2.2 scanRow9 (by decide) (by decide)

/-- Claim C8: every get_scan_data call opens exactly one store
connection, opens it first, and closes it exactly once as its last
connection event, on every exit path including not-found. -/
theorem claim_C8_connection_discipline (store : Store) (scan_id : Int) :
    (scanDataTrace store scan_id).count ConnEvent.openConn = 1 ∧
    (scanDataTrace store scan_id).count ConnEvent.closeConn = 1 ∧
    (scanDataTrace store scan_id).head? = some ConnEvent.openConn ∧
    (scanDataTrace store scan_id).getLast? = some ConnEvent.closeConn := by
  rcases h : findScan store scan_id with _ | scan <;>
    simp [scanDataTrace, get_scan_data, h]

/-- Claim C1: for a scan identifier with no matching record, every one
of the six renderers returns False and writes no output file at all,
whatever the encoder availability. -/
theorem claim_C1_unknown_scan (store : Store) (avail : Avail) (scan_id : Int)
    (f : String) (now : Dtm) (h : findScan store scan_id = none) :
    ((generate_html_report store scan_id f now).ok = false ∧
      (generate_html_report store scan_id f now).file = none) ∧
    ((generate_json_report store scan_id f).ok = false ∧
      (generate_json_report store scan_id f).file = none) ∧
    ((generate_csv_report store scan_id f).ok = false ∧
      (generate_csv_report store scan_id f).file = none) ∧
    ((generate_pdf_report store avail scan_id f).ok = false ∧
      (generate_pdf_report store avail scan_id f).file = none) ∧
    ((generate_docx_report store avail scan_id f).ok = false ∧
      (generate_docx_report store avail scan_id f).file = none) ∧
    ((generate_excel_report store avail scan_id f).ok = false ∧
      (generate_excel_report store avail scan_id f).file = none) := by
  have hg : getScanData store scan_id = none := getScanData_notFound store scan_id h
  rcases avail with ⟨p, dx, e⟩
  cases p <;> cases dx <;> cases e <;>
    simp [generate_html_report, generate_json_report, generate_csv_report,
      generate_pdf_report, generate_docx_report, generate_excel_report, hg]

/-- Witness for C1 at the empty store with all encoders available. -/
theorem claim_C1_witness :
    findScan emptyStore 5 = none ∧
    (((generate_html_report emptyStore 5 "report.html" dtmA).ok = false ∧
      (generate_html_report emptyStore 5 "report.html" dtmA).file = none) ∧
    ((generate_json_report emptyStore 5 "report.html").ok = false ∧
      (generate_json_report emptyStore 5 "report.html").file = none) ∧
    ((generate_csv_report emptyStore 5 "report.html").ok = false ∧
      (generate_csv_report emptyStore 5 "report.html").file = none) ∧
    ((generate_pdf_report emptyStore { pdf := true, docx := true, excel := true } 5 "report.html").ok = false ∧
      (generate_pdf_report emptyStore { pdf := true, docx := true, excel := true } 5 "report.html").file = none) ∧
    ((generate_docx_report emptyStore { pdf := true, docx := true, excel := true } 5 "report.html").ok = false ∧
      (generate_docx_report emptyStore { pdf := true, docx := true, excel := true } 5 "report.html").file = none) ∧
    ((generate_excel_report emptyStore { pdf := true, docx := true, excel := true } 5 "report.html").ok = false ∧
      (generate_excel_report emptyStore { pdf := true, docx := true, excel := true } 5 "report.html").file = none)) :=
  ⟨by decide,
   claim_C1_unknown_scan emptyStore { pdf := true, docx := true, excel := true }
     5 "report.html" dtmA (by decide)⟩

/-- Claim C3 counterexample: with the optional encoder absent, the
renderer hands back the very same return value False that it hands back
for an unknown scan identifier, so the declined-capability signal is
not distinguishable from the failure signal. -/
theorem claim_C3_counterexample :
    (generate_pdf_report store42 { pdf := false, docx := true, excel := true } 42 "report.pdf").ok
      = (generate_pdf_report emptyStore { pdf := true, docx := true, excel := true } 5 "report.pdf").ok ∧
    (generate_docx_report store42 { pdf := true, docx := false, excel := true } 42 "report.docx").ok
      = (generate_docx_report emptyStore { pdf := true, docx := true, excel := true } 5 "report.docx").ok ∧
    (generate_excel_report store42 { pdf := true, docx := true, excel := false } 42 "report.xlsx").ok
      = (generate_excel_report emptyStore { pdf := true, docx := true, excel := true } 5 "report.xlsx").ok ∧
    (generate_pdf_report store42 { pdf := false, docx := true, excel := true } 42 "report.pdf").ok
      = false := by
  decide

/-- Claim C3 (amended): when the optional encoder is absent the
renderer returns False with no file written, which is the same Boolean
failure value returned for an unknown scan identifier; only the printed
diagnostic message distinguishes the declined capability from the
not-found failure. -/
theorem claim_C3_unavailable (store : Store) (avail : Avail) (scan_id : Int)
    (f : String) :
    (avail.pdf = false → generate_pdf_report store avail scan_id f =
      { ok := false, file := none,
        msgs := ["[!] PDF generation not available. Install: pip install reportlab"] }) ∧
    (avail.docx = false → generate_docx_report store avail scan_id f =
      { ok := false, file := none,
        msgs := ["[!] DOCX generation not available. Install: pip install python-docx"] }) ∧
    (avail.excel = false → generate_excel_report store avail scan_id f =
      { ok := false, file := none,
        msgs := ["[!] Excel generation not available. Install: pip install openpyxl"] }) ∧
    (findScan store scan_id = none → avail.pdf = true →
      (generate_pdf_report store avail scan_id f).ok = false ∧
      (generate_pdf_report store avail scan_id f).msgs = [notFoundMsg scan_id]) := by
  refine ⟨?_, ?_, ?_, ?_⟩
  · intro h; simp [generate_pdf_report, h]
  · intro h; simp [generate_docx_report, h]
  · intro h; simp [generate_excel_report, h]
  · intro hn hp
    simp [generate_pdf_report, hp, getScanData_notFound store scan_id hn]

/-- Witness for C3 (amended) with every encoder absent. -/
theorem claim_C3_witness :
    generate_pdf_report store42 { pdf := false, docx := false, excel := false } 42 "r.pdf" =
      { ok := false, file := none,
        msgs := ["[!] PDF generation not available. Install: pip install reportlab"] } :=
  (claim_C3_unavailable store42 { pdf := false, docx := false, excel := false } 42 "r.pdf").1 rfl

/-- Claim C4 counterexample: rendering scan 42 at two generation times
one second apart across a year boundary, the claim would force every
segment outside the Report Generated field to coincide; the footer
copyright year segment (index 29) differs, so the embedded timestamp is
not confined to the single Report Generated field. -/
theorem claim_C4_counterexample :
    ¬ (∀ i : Nat, i ≠ reportGeneratedSlot →
        (htmlSegments d42 42 dtmA)[i]? = (htmlSegments d42 42 dtmB)[i]?) := by
  intro hAll
  have h29 := hAll 29 (by decide)
  rw [show (29 : Nat) = footerYearSlot d42 from by decide] at h29
  rw [htmlSegments_footerYear d42 42 dtmA, htmlSegments_footerYear d42 42 dtmB] at h29
  exact absurd h29 (by decide)

/-- Claim C4 (amended): the HTML output is a pure function of the scan
data and the generation time, so two invocations whose generation time
agrees (same formatted string and year) produce byte-identical output;
the generation time is embedded in exactly two fields, the Report
Generated value (segment 21) and the footer copyright year. The other
renderers do not embed the generation time at all. -/
theorem claim_C4_idempotent_up_to_time (d : ScanData) (scan_id : Int)
    (t1 t2 : Dtm) (h1 : t1.fmtStr = t2.fmtStr) (h2 : t1.year = t2.year) :
    htmlContent d scan_id t1 = htmlContent d scan_id t2 ∧
    (htmlSegments d scan_id t1)[reportGeneratedSlot]? = some t1.fmtStr ∧
    (htmlSegments d scan_id t1)[footerYearSlot d]? = some (toString t1.year) := by
  refine ⟨?_, htmlSegments_reportGenerated d scan_id t1,
    htmlSegments_footerYear d scan_id t1⟩
  unfold htmlContent htmlSegments htmlHeadSegments htmlTailSegments
  rw [h1, h2]

/-- Witness for C4 (amended) at scan 42 and a fixed generation time. -/
theorem claim_C4_witness :
    htmlContent d42 42 dtmA = htmlContent d42 42 dtmA ∧
    (htmlSegments d42 42 dtmA)[reportGeneratedSlot]? = some dtmA.fmtStr ∧
    (htmlSegments d42 42 dtmA)[footerYearSlot d42]? = some (toString dtmA.year) :=
  claim_C4_idempotent_up_to_time d42 42 dtmA dtmA rfl rfl

/-- Claim C9: a finding whose solution (and, for HTML, reference) field
is the empty string is rendered exactly as if the field were absent:
the HTML card, the PDF chunk and the DOCX chunk are byte-identical for
the two stored values, because the emission is guarded by Python
truthiness, which does not separate the empty string from None. -/
theorem claim_C9_empty_equals_absent (idx : Nat) (v : Finding) :
    htmlVulnBlock idx { v with solution := some "" } =
      htmlVulnBlock idx { v with solution := none } ∧
    htmlVulnBlock idx { v with reference := some "" } =
      htmlVulnBlock idx { v with reference := none } ∧
    pdfVulnChunk idx { v with solution := some "" } =
      pdfVulnChunk idx { v with solution := none } ∧
    docxVulnChunk idx { v with solution := some "" } =
      docxVulnChunk idx { v with solution := none } ∧
    pytruthy (some "") = pytruthy none := by
  refine ⟨?_, ?_, ?_, ?_, rfl⟩ <;>
    simp [htmlVulnBlock, pdfVulnChunk, docxVulnChunk, pytruthy]

/-- Claim C2 counterexample: scan 1 stores a finding whose reference is
a distinctive URL; the CSV renderer succeeds, but that stored value
appears in no cell of any row handed to csv.writer, so the reference
field is not recoverable from the CSV output. -/
theorem claim_C2_counterexample :
    vulnRowRef.reference = some "https://refs.example/x1" ∧
    (generate_csv_report storeRef 1 "report.csv").ok = true ∧
    (generate_csv_report storeRef 1 "report.csv").file =
      some ("report.csv", csvRows (mkScanData scanRowRef [vulnRowRef])) ∧
    ((csvRows (mkScanData scanRowRef [vulnRowRef])).flatten.contains
      "https://refs.example/x1") = false := by
  decide

/-- Claim C2 (amended): for every existing scan and every stored
finding of it, the JSON output contains the finding with all seven
fields intact, and the CSV output contains a row carrying six of the
fields (name, severity, confidence, URL, description, solution); the
reference field is omitted from the CSV output. -/
theorem claim_C2_roundtrip (store : Store) (scan_id : Int) (scan : ScanRow)
    (fj fc : String) (v : VulnRow)
    (h : findScan store scan_id = some scan) (hv : v ∈ scanVulns store scan_id) :
    (generate_json_report store scan_id fj).file =
      some (fj, mkScanData scan (scanVulns store scan_id)) ∧
    rowToFinding v ∈ (mkScanData scan (scanVulns store scan_id)).vulnerabilities ∧
    (rowToFinding v).name = v.name ∧ (rowToFinding v).severity = v.severity ∧
    (rowToFinding v).confidence = v.confidence ∧ (rowToFinding v).url = v.url ∧
    (rowToFinding v).description = v.description ∧
    (rowToFinding v).solution = v.solution ∧
    (rowToFinding v).reference = v.reference ∧
    (generate_csv_report store scan_id fc).file =
      some (fc, csvRows (mkScanData scan (scanVulns store scan_id))) ∧
    [v.name, v.severity, v.confidence, v.url, v.description, csvField v.solution]
      ∈ csvRows (mkScanData scan (scanVulns store scan_id)) := by
  have hg := getScanData_found store scan_id scan h
  refine ⟨by simp [generate_json_report, hg], ?_, rfl, rfl, rfl, rfl, rfl, rfl, rfl,
    by simp [generate_csv_report, hg], ?_⟩
  · exact List.mem_map_of_mem rowToFinding hv
  · unfold csvRows mkScanData
    refine List.mem_cons_of_mem _ ?_
    rw [List.map_map]
    exact List.mem_map.mpr ⟨v, hv, rfl⟩

/-- Witness for C2 (amended): the JSON output of scan 1 carries the
full aggregate including the reference field. -/
theorem claim_C2_witness :
    findScan storeRef 1 = some scanRowRef ∧
    vulnRowRef ∈ scanVulns storeRef 1 ∧
    (generate_json_report storeRef 1 "r.json").file =
      some ("r.json", mkScanData scanRowRef (scanVulns storeRef 1)) :=
  ⟨by decide, by decide,
   (claim_C2_roundtrip storeRef 1 scanRowRef "r.json" "r.csv" vulnRowRef
     (by decide) (by decide)).1⟩
/-- Claim C5: generate_all_formats invokes each currently available
renderer exactly once (the format names of the returned mapping are
exactly the available formats, without duplicates), records the
per-format success flag of that single invocation, continues past
failures (every available format has its entry whatever the other
flags), and omits exactly the formats whose optional encoder is
absent. -/
theorem claim_C5_all_formats (store : Store) (avail : Avail) (scan_id : Int)
    (base_name : String) (now : Dtm) :
    ((generate_all_formats store avail scan_id base_name now).map Prod.fst).Nodup ∧
    (generate_all_formats store avail scan_id base_name now).map Prod.fst =
      ["HTML", "JSON", "CSV"] ++ (if avail.pdf then ["PDF"] else []) ++
        (if avail.docx then ["DOCX"] else []) ++
        (if avail.excel then ["Excel"] else []) ∧
    ("HTML", (generate_html_report store scan_id (base_name ++ ".html") now).ok) ∈
      generate_all_formats store avail scan_id base_name now ∧
    ("JSON", (generate_json_report store scan_id (base_name ++ ".json")).ok) ∈
      generate_all_formats store avail scan_id base_name now ∧
    ("CSV", (generate_csv_report store scan_id (base_name ++ ".csv")).ok) ∈
      generate_all_formats store avail scan_id base_name now ∧
    (("PDF" ∈ (generate_all_formats store avail scan_id base_name now).map Prod.fst)
      ↔ avail.pdf = true) ∧
    (avail.pdf = true →
      ("PDF", (generate_pdf_report store avail scan_id (base_name ++ ".pdf")).ok) ∈
        generate_all_formats store avail scan_id base_name now) ∧
    (("DOCX" ∈ (generate_all_formats store avail scan_id base_name now).map Prod.fst)
      ↔ avail.docx = true) ∧
    (avail.docx = true →
      ("DOCX", (generate_docx_report store avail scan_id (base_name ++ ".docx")).ok) ∈
        generate_all_formats store avail scan_id base_name now) ∧
    (("Excel" ∈ (generate_all_formats store avail scan_id base_name now).map Prod.fst)
      ↔ avail.excel = true) ∧
    (avail.excel = true →
      ("Excel", (generate_excel_report store avail scan_id (base_name ++ ".xlsx")).ok) ∈
        generate_all_formats store avail scan_id base_name now) := by
  rcases avail with ⟨p, dx, e⟩
  cases p <;> cases dx <;> cases e <;>
    simp [generate_all_formats, allFormatsList, fmtRun]

/-- Witness for C5: with every encoder available, the orchestrator run
for scan 42 contains the PDF entry with the flag of its single PDF
renderer invocation. -/
theorem claim_C5_witness :
    ("PDF", (generate_pdf_report store42 { pdf := true, docx := true, excel := true }
        42 ("security_report" ++ ".pdf")).ok) ∈
      generate_all_formats store42 { pdf := true, docx := true, excel := true }
        42 "security_report" dtmA :=
  (claim_C5_all_formats store42 { pdf := true, docx := true, excel := true }
    42 "security_report" dtmA).2.2.2.2.2.2.1 rfl

/-- Claim C6: for an existing scan, every renderer writes the output
assembled from the stored aggregate; each output carries exactly one
finding entry per stored finding row, in stored order (the i-th entry
is built from the i-th finding and embeds its name); and the four
aggregate counts surfaced by the outputs are the stored scan-row values
verbatim (the CSV output surfaces no aggregate counts). -/
theorem claim_C6_entries_and_counts (store : Store) (scan_id : Int)
    (scan : ScanRow) (now : Dtm) (f : String) (d : ScanData)
    (h : findScan store scan_id = some scan)
    (hd : d = mkScanData scan (scanVulns store scan_id)) :
    (generate_html_report store scan_id f now).file =
      some (f, htmlContent d scan_id now) ∧
    (generate_json_report store scan_id f).file = some (f, d) ∧
    (generate_csv_report store scan_id f).file = some (f, csvRows d) ∧
    (generate_pdf_report store { pdf := true, docx := true, excel := true }
      scan_id f).file = some (f, pdfStory d) ∧
    (generate_docx_report store { pdf := true, docx := true, excel := true }
      scan_id f).file = some (f, docxDoc d) ∧
    (generate_excel_report store { pdf := true, docx := true, excel := true }
      scan_id f).file = some (f, excelWb d) ∧
    (htmlVulnBlocks 1 d.vulnerabilities).length = (scanVulns store scan_id).length ∧
    d.vulnerabilities.length = (scanVulns store scan_id).length ∧
    (csvRows d).length = (scanVulns store scan_id).length + 1 ∧
    (pdfVulnChunks 1 d.vulnerabilities).length = (scanVulns store scan_id).length ∧
    (docxVulnChunks 1 d.vulnerabilities).length = (scanVulns store scan_id).length ∧
    (excelWb d).vulnRows.length = (scanVulns store scan_id).length + 1 ∧
    (∀ i v, d.vulnerabilities[i]? = some v →
      (htmlVulnBlocks 1 d.vulnerabilities)[i]? = some (htmlVulnBlock (1 + i) v) ∧
      ∃ p q, htmlVulnBlock (1 + i) v = p ++ (v.name ++ q)) ∧
    (∀ i v, d.vulnerabilities[i]? = some v →
      (csvRows d)[i + 1]? = some [v.name, v.severity, v.confidence, v.url,
        v.description, csvField v.solution]) ∧
    (∀ i v, d.vulnerabilities[i]? = some v →
      (pdfVulnChunks 1 d.vulnerabilities)[i]? = some (pdfVulnChunk (1 + i) v) ∧
      ∃ p q, (pdfVulnChunk (1 + i) v)[0]? =
        some (PdfElem.paragraph (p ++ (v.name ++ q)) ("Heading3"))) ∧
    (∀ i v, d.vulnerabilities[i]? = some v →
      (docxVulnChunks 1 d.vulnerabilities)[i]? = some (docxVulnChunk (1 + i) v) ∧
      ∃ p, (docxVulnChunk (1 + i) v)[0]? =
        some (DocxElem.heading (p ++ v.name) 2)) ∧
    (∀ i v, d.vulnerabilities[i]? = some v →
      (excelWb d).vulnRows[i + 1]? = some
        [CellVal.i (Int.ofNat (1 + i)), CellVal.s v.name, CellVal.s v.severity,
         CellVal.s v.confidence, CellVal.s v.url, CellVal.s v.description,
         cellOfOpt v.solution]) ∧
    (htmlSegments d scan_id now)[3]? = some (toString scan.total_alerts) ∧
    (htmlSegments d scan_id now)[5]? = some (toString scan.high_risk) ∧
    (htmlSegments d scan_id now)[7]? = some (toString scan.medium_risk) ∧
    (htmlSegments d scan_id now)[9]? = some (toString scan.low_risk) ∧
    d.total_alerts = scan.total_alerts ∧ d.high_risk = scan.high_risk ∧
    d.medium_risk = scan.medium_risk ∧ d.low_risk = scan.low_risk ∧
    (pdfStory d)[2]? = some (PdfElem.tbl
      [["Metric", "Count"], ["Total Issues", toString scan.total_alerts],
       ["High Risk", toString scan.high_risk],
       ["Medium Risk", toString scan.medium_risk],
       ["Low Risk", toString scan.low_risk]]) ∧
    (docxDoc d)[2]? = some (DocxElem.tbl
      [["Total Issues", toString scan.total_alerts],
       ["High Risk", toString scan.high_risk],
       ["Medium Risk", toString scan.medium_risk],
       ["Low Risk", toString scan.low_risk],
       ["Target URL", scan.target_url]]) ∧
    (excelWb d).summaryCells[6]? = some ("B5", CellVal.i scan.total_alerts) ∧
    (excelWb d).summaryCells[8]? = some ("B6", CellVal.i scan.high_risk) ∧
    (excelWb d).summaryCells[10]? = some ("B7", CellVal.i scan.medium_risk) ∧
    (excelWb d).summaryCells[12]? = some ("B8", CellVal.i scan.low_risk) := by
  subst hd
  have hg := getScanData_found store scan_id scan h
  refine ⟨by simp [generate_html_report, hg], by simp [generate_json_report, hg],
    by simp [generate_csv_report, hg], by simp [generate_pdf_report, hg],
    by simp [generate_docx_report, hg], by simp [generate_excel_report, hg],
    by simp [htmlVulnBlocks_length, mkScanData],
    by simp [mkScanData],
    by simp [csvRows, mkScanData],
    by simp [pdfVulnChunks_length, mkScanData],
    by simp [docxVulnChunks_length, mkScanData],
    by simp [excelWb, excelVulnRows_length, mkScanData],
    ?_, ?_, ?_, ?_, ?_,
    rfl, rfl, rfl, rfl, rfl, rfl, rfl, rfl, rfl, rfl, rfl, rfl, rfl, rfl⟩
  · intro i v hiv
    refine ⟨htmlVulnBlocks_getElem _ 1 i v hiv, ?_⟩
    refine ⟨htmlB1 ++ (pylower v.severity ++ (htmlB2 ++ (toString (1 + i) ++ htmlB3))),
      htmlB4 ++ (pylower v.severity ++ (htmlB5 ++ (v.severity ++ (htmlB6 ++
        (v.description ++ (htmlB7 ++ (v.url ++ (htmlB8 ++ (v.confidence ++
        (htmlB9 ++ ((if pytruthy v.solution then htmlC1 ++ pystrOpt v.solution ++ htmlC2 else "") ++
        ((if pytruthy v.reference then htmlD1 ++ pystrOpt v.reference ++ htmlD2 else "") ++
        htmlE1)))))))))))), ?_⟩
    simp only [htmlVulnBlock, strAssoc]
  · intro i v hiv
    simp [csvRows, List.getElem?_map, hiv]
  · intro i v hiv
    refine ⟨pdfVulnChunks_getElem _ 1 i v hiv, ?_⟩
    refine ⟨"<b>" ++ (toString (1 + i) ++ ". "), "</b> [" ++ (v.severity ++ "]"), ?_⟩
    simp only [pdfVulnChunk, List.cons_append, List.getElem?_cons_zero,
      Option.some.injEq, PdfElem.paragraph.injEq, strAssoc]
  · intro i v hiv
    refine ⟨docxVulnChunks_getElem _ 1 i v hiv, ?_⟩
    refine ⟨toString (1 + i) ++ ". ", ?_⟩
    simp only [docxVulnChunk, List.cons_append, List.getElem?_cons_zero,
      Option.some.injEq, DocxElem.heading.injEq, strAssoc]
  · intro i v hiv
    have hx := excelVulnRows_getElem _ 1 i v hiv
    simpa [excelWb] using hx

/-- Witness for C6 at the worked example scan 42. -/
theorem claim_C6_witness :
    findScan store42 42 = some scanRow42 ∧
    (generate_html_report store42 42 "report.html" dtmA).file =
      some ("report.html", htmlContent d42 42 dtmA) :=
  ⟨by decide,
   (claim_C6_entries_and_counts store42 42 scanRow42 dtmA "report.html" d42
     (by decide) rfl).1⟩

/-- Claim C10: the renderers copy the stored aggregate counts verbatim
and never cross-check them against the finding rows: when the stored
total_alerts disagrees with the number of finding rows, every renderer
still succeeds, the outputs surface the stored counts, and the finding
entries still match the actual rows. -/
theorem claim_C10_counts_verbatim (store : Store) (scan_id : Int)
    (scan : ScanRow) (now : Dtm) (f : String) (d : ScanData)
    (h : findScan store scan_id = some scan)
    (hd : d = mkScanData scan (scanVulns store scan_id))
    (hdrift : scan.total_alerts ≠ Int.ofNat (scanVulns store scan_id).length) :
    (generate_html_report store scan_id f now).ok = true ∧
    (generate_json_report store scan_id f).ok = true ∧
    (generate_csv_report store scan_id f).ok = true ∧
    (generate_pdf_report store { pdf := true, docx := true, excel := true }
      scan_id f).ok = true ∧
    (generate_docx_report store { pdf := true, docx := true, excel := true }
      scan_id f).ok = true ∧
    (generate_excel_report store { pdf := true, docx := true, excel := true }
      scan_id f).ok = true ∧
    d.total_alerts = scan.total_alerts ∧
    d.vulnerabilities.length = (scanVulns store scan_id).length ∧
    (htmlSegments d scan_id now)[3]? = some (toString scan.total_alerts) ∧
    (htmlVulnBlocks 1 d.vulnerabilities).length = (scanVulns store scan_id).length ∧
    (pdfStory d)[2]? = some (PdfElem.tbl
      [["Metric", "Count"], ["Total Issues", toString scan.total_alerts],
       ["High Risk", toString scan.high_risk],
       ["Medium Risk", toString scan.medium_risk],
       ["Low Risk", toString scan.low_risk]]) ∧
    (docxDoc d)[2]? = some (DocxElem.tbl
      [["Total Issues", toString scan.total_alerts],
       ["High Risk", toString scan.high_risk],
       ["Medium Risk", toString scan.medium_risk],
       ["Low Risk", toString scan.low_risk],
       ["Target URL", scan.target_url]]) ∧
    (excelWb d).summaryCells[6]? = some ("B5", CellVal.i scan.total_alerts) ∧
    (csvRows d).length = (scanVulns store scan_id).length + 1 := by
  subst hd
  have hg := getScanData_found store scan_id scan h
  refine ⟨by simp [generate_html_report, hg], by simp [generate_json_report, hg],
    by simp [generate_csv_report, hg], by simp [generate_pdf_report, hg],
    by simp [generate_docx_report, hg], by simp [generate_excel_report, hg],
    rfl,
    by simp [mkScanData],
    rfl,
    by simp [htmlVulnBlocks_length, mkScanData],
    rfl, rfl, rfl,
    by simp [csvRows, mkScanData]⟩

/-- Witness for C10 at the store whose scan 7 records total_alerts 5
against a single finding row. -/
theorem claim_C10_witness :
    findScan storeMismatch 7 = some scanRow7 ∧
    scanRow7.total_alerts ≠ Int.ofNat (scanVulns storeMismatch 7).length ∧
    (generate_html_report storeMismatch 7 "report.html" dtmA).ok = true :=
  ⟨by decide, by decide,
   (claim_C10_counts_verbatim storeMismatch 7 scanRow7 dtmA "report.html"
     (mkScanData scanRow7 (scanVulns storeMismatch 7)) (by decide) rfl
     (by decide)).1⟩
